import Mathlib

/-!
Shallow embedding of `src/models.py` (bradley329/wishlists): the `Item` and
`Wishlist` persistence models, their dictionary (de)serialization, and their
save/delete/get/find operations.

Python values flowing through dictionary payloads are modelled by `Value`
(JSON scalars); a request body is a `Payload` (a dict, a list, or `None`).
Subscripting (`data[key]`) is embedded by `Payload.getItem`, which returns a
`KeyError` for a missing key of a dict and a `TypeError` for non-mapping
input, exactly as in Python.  Instance mutation (`self.x = ...`) is embedded
by explicit state passing: `deserialize` returns the instance state after the
call together with `none` (normal return) or `some e` (a raised
`DataValidationError`), so that partial mutation before a raise is visible.

The storage engine (SQLAlchemy session, an external collaborator per the
spec) is embedded per entity as a table of `(id, row)` pairs plus an
autoincrement counter `nextId` (ids are generated from 1 upward) and a
`commits` counter counting `db.session.commit()` calls.  A committed
instance with a truthy id is attached to the session, so `commit` flushes
its current field values to its row; `session.add` followed by `commit`
inserts a row, assigning the autoincrement id when the instance has none.
-/

/-- A Python/JSON scalar value as carried in request and response payloads. -/
inductive Value where
  | int (n : Int)
  | str (s : String)
  | null
deriving DecidableEq, Repr

/-- A request body: a mapping (dict, as an association list of string keys),
a list, or `None`.  Only mappings support string subscripting. -/
inductive Payload where
  | dict (entries : List (String × Value))
  | list (elems : List Value)
  | null
deriving DecidableEq, Repr

/-- A Python exception arising from `data[key]`. -/
inductive PyErr where
  | keyError (key : String)
  | typeError
deriving DecidableEq, Repr

/-- `data[key]` in Python: value for the key in a dict, `KeyError` when the
key is absent, `TypeError` when `data` is not a mapping. -/
def Payload.getItem : Payload → String → Except PyErr Value
  | .dict entries, key =>
      match entries.find? (fun e => e.1 == key) with
      | some e => .ok e.2
      | none => .error (.keyError key)
  | .list _, _ => .error .typeError
  | .null, _ => .error .typeError

/-- `class DataValidationError(Exception)`: the single error kind raised on
bad deserialization input, carrying its message. -/
structure DataValidationError where
  msg : String
deriving DecidableEq, Repr

/-- The `id` column value as serialized into a payload (`None` before the
first save, the integer id afterwards). -/
def idValue : Option Nat → Value
  | none => Value.null
  | some n => Value.int n

/-- Python truthiness of an id attribute, as tested by `if self.id:` /
`if not self.id:` — `None` and `0` are falsy. -/
def idTruthy : Option Nat → Bool
  | none => false
  | some n => n != 0

/-- Model for an `Item` row: primary key `id` (absent before first save) and
the `wishlist_id`, `product_id`, `name`, `description` columns. -/
structure Item where
  id : Option Nat
  wishlist_id : Value
  product_id : Value
  name : Value
  description : Value
deriving DecidableEq, Repr

/-- Model for a `Wishlist` row: primary key `id` (absent before first save)
and the `customer_id`, `wishlist_name` columns. -/
structure Wishlist where
  id : Option Nat
  customer_id : Value
  wishlist_name : Value
deriving DecidableEq, Repr

/-- `Item.serialize`: the dictionary with keys
id, wishlist_id, product_id, name, description. -/
def Item.serialize (self : Item) : Payload :=
  .dict [("id", idValue self.id),
         ("wishlist_id", self.wishlist_id),
         ("product_id", self.product_id),
         ("name", self.name),
         ("description", self.description)]

/-- The messages of `Item.deserialize`: `KeyError` yields
`'Invalid item: missing ' + error.args[0]`, `TypeError` yields the
bad-or-no-data message. -/
def itemError : PyErr → DataValidationError
  | .keyError key => ⟨"Invalid item: missing " ++ key⟩
  | .typeError => ⟨"Invalid item: body of request contained bad or no data"⟩

/-- `Item.deserialize(self, data, wishlist_id)`: assigns `wishlist_id`, then
`product_id`, `name`, `description` from `data` in order; a `KeyError` or
`TypeError` aborts the remaining assignments and raises
`DataValidationError`.  Returns the instance state after the call and the
raised error, if any. -/
def Item.deserialize (self : Item) (data : Payload) (wishlist_id : Value) :
    Item × Option DataValidationError :=
  let s0 := { self with wishlist_id := wishlist_id }
  match data.getItem "product_id" with
  | .error e => (s0, some (itemError e))
  | .ok v1 =>
    let s1 := { s0 with product_id := v1 }
    match data.getItem "name" with
    | .error e => (s1, some (itemError e))
    | .ok v2 =>
      let s2 := { s1 with name := v2 }
      match data.getItem "description" with
      | .error e => (s2, some (itemError e))
      | .ok v3 => ({ s2 with description := v3 }, none)

/-- `Wishlist.serialize`: the dictionary with keys
id, customer_id, wishlist_name. -/
def Wishlist.serialize (self : Wishlist) : Payload :=
  .dict [("id", idValue self.id),
         ("customer_id", self.customer_id),
         ("wishlist_name", self.wishlist_name)]

/-- The messages of `Wishlist.deserialize`: `KeyError` yields
`'Invalid wishlist: missing ' + error.args[0]`, `TypeError` yields the
bad-or-no-data message. -/
def wishlistError : PyErr → DataValidationError
  | .keyError key => ⟨"Invalid wishlist: missing " ++ key⟩
  | .typeError => ⟨"Invalid wishlist: body of request contained bad or no data"⟩

/-- `Wishlist.deserialize(self, data)`: assigns `customer_id` then
`wishlist_name` from `data` in order; a `KeyError` or `TypeError` aborts the
remaining assignments and raises `DataValidationError`.  Returns the
instance state after the call and the raised error, if any. -/
def Wishlist.deserialize (self : Wishlist) (data : Payload) :
    Wishlist × Option DataValidationError :=
  match data.getItem "customer_id" with
  | .error e => (self, some (wishlistError e))
  | .ok v1 =>
    let s1 := { self with customer_id := v1 }
    match data.getItem "wishlist_name" with
    | .error e => (s1, some (wishlistError e))
    | .ok v2 => ({ s1 with wishlist_name := v2 }, none)

/-- Persistent store backing the `items` table: rows keyed by id, the
autoincrement counter (ids are handed out from 1 upward), and the number of
commits performed. -/
structure ItemDB where
  rows : List (Nat × Item)
  nextId : Nat
  commits : Nat
deriving DecidableEq, Repr

/-- Persistent store backing the `wishlists` table. -/
structure WishlistDB where
  rows : List (Nat × Wishlist)
  nextId : Nat
  commits : Nat
deriving DecidableEq, Repr

/-- A session flush of an attached instance: the row with the instance's id
takes the instance's current field values. -/
def updateRow {α : Type} (rows : List (Nat × α)) (n : Nat) (x : α) :
    List (Nat × α) :=
  rows.map (fun p => if p.1 = n then (p.1, x) else p)

/-- `Item.save`: `if not self.id: db.session.add(self)` then
`db.session.commit()`.  With a truthy id the attached instance's current
state is flushed to its row; with id `None` the commit inserts the row and
assigns the next autoincrement id; with an explicit id of `0` (falsy) the
add inserts a row under that given key.  Returns the instance state after
the call and the new store. -/
def Item.save (self : Item) (db : ItemDB) : Item × ItemDB :=
  if idTruthy self.id then
    (self, { db with rows := updateRow db.rows (self.id.getD 0) self,
                     commits := db.commits + 1 })
  else
    match self.id with
    | some n => (self, { db with rows := db.rows ++ [(n, self)],
                                 commits := db.commits + 1 })
    | none =>
      let saved := { self with id := some db.nextId }
      (saved, { rows := db.rows ++ [(db.nextId, saved)],
                nextId := db.nextId + 1,
                commits := db.commits + 1 })

/-- `Item.delete`: `if self.id: db.session.delete(self)` then
`db.session.commit()`.  A truthy id removes the row; otherwise only the
commit happens. -/
def Item.delete (self : Item) (db : ItemDB) : ItemDB :=
  if idTruthy self.id then
    { db with rows := db.rows.filter (fun p => p.1 != self.id.getD 0),
              commits := db.commits + 1 }
  else
    { db with commits := db.commits + 1 }

/-- `Item.get(item_id)`: `Item.query.get(item_id)` — the row with that
primary key, or `None`. -/
def Item.get (db : ItemDB) (item_id : Nat) : Option Item :=
  (db.rows.find? (fun p => p.1 == item_id)).map (fun p => p.2)

/-- `Item.all()`: every persisted Item. -/
def Item.all (db : ItemDB) : List Item :=
  db.rows.map (fun p => p.2)

/-- `Item.find_by_name(name)`: the query
`Item.query.filter(Item.name == name)`, modelled as the snapshot list it
yields. -/
def Item.find_by_name (db : ItemDB) (name : Value) : List Item :=
  (db.rows.filter (fun p => p.2.name == name)).map (fun p => p.2)

/-- `Wishlist.save`: same pattern as `Item.save`. -/
def Wishlist.save (self : Wishlist) (db : WishlistDB) : Wishlist × WishlistDB :=
  if idTruthy self.id then
    (self, { db with rows := updateRow db.rows (self.id.getD 0) self,
                     commits := db.commits + 1 })
  else
    match self.id with
    | some n => (self, { db with rows := db.rows ++ [(n, self)],
                                 commits := db.commits + 1 })
    | none =>
      let saved := { self with id := some db.nextId }
      (saved, { rows := db.rows ++ [(db.nextId, saved)],
                nextId := db.nextId + 1,
                commits := db.commits + 1 })

/-- `Wishlist.delete`: same pattern as `Item.delete`. -/
def Wishlist.delete (self : Wishlist) (db : WishlistDB) : WishlistDB :=
  if idTruthy self.id then
    { db with rows := db.rows.filter (fun p => p.1 != self.id.getD 0),
              commits := db.commits + 1 }
  else
    { db with commits := db.commits + 1 }

/-- `Wishlist.get(wishlist_id)`: `Wishlist.query.get(wishlist_id)` — the row
with that primary key, or `None`. -/
def Wishlist.get (db : WishlistDB) (wishlist_id : Nat) : Option Wishlist :=
  (db.rows.find? (fun p => p.1 == wishlist_id)).map (fun p => p.2)

/-- `Wishlist.all()`: every persisted Wishlist. -/
def Wishlist.all (db : WishlistDB) : List Wishlist :=
  db.rows.map (fun p => p.2)

/-- `Wishlist.find_by_customer_id(customer_id)`: the query
`Wishlist.query.filter(Wishlist.customer_id == customer_id)`, modelled as
the snapshot list it yields. -/
def Wishlist.find_by_customer_id (db : WishlistDB) (customer_id : Value) :
    List Wishlist :=
  (db.rows.filter (fun p => p.2.customer_id == customer_id)).map (fun p => p.2)

/-! ## Helper lemmas -/

/-- Subscripting a dict whose first entry has a different key skips that
entry. -/
theorem getItem_dict_cons_ne (k key : String) (v : Value)
    (entries : List (String × Value)) (h : (k == key) = false) :
    (Payload.dict ((k, v) :: entries)).getItem key =
      (Payload.dict entries).getItem key := by
  simp [Payload.getItem, h]

/-- Every error produced by `Wishlist.deserialize` comes from
`wishlistError` applied to the underlying Python exception. -/
theorem wishlist_error_shape (self : Wishlist) (data : Payload) :
    (self.deserialize data).2 = none ∨
      ∃ pe : PyErr, (self.deserialize data).2 = some (wishlistError pe) := by
  unfold Wishlist.deserialize
  cases data.getItem "customer_id" with
  | error e => exact Or.inr ⟨e, rfl⟩
  | ok v1 =>
    cases data.getItem "wishlist_name" with
    | error e => exact Or.inr ⟨e, rfl⟩
    | ok v2 => exact Or.inl rfl

/-- Every error produced by `Item.deserialize` comes from `itemError`
applied to the underlying Python exception. -/
theorem item_error_shape (self : Item) (data : Payload) (wid : Value) :
    (self.deserialize data wid).2 = none ∨
      ∃ pe : PyErr, (self.deserialize data wid).2 = some (itemError pe) := by
  unfold Item.deserialize
  cases data.getItem "product_id" with
  | error e => exact Or.inr ⟨e, rfl⟩
  | ok v1 =>
    cases data.getItem "name" with
    | error e => exact Or.inr ⟨e, rfl⟩
    | ok v2 =>
      cases data.getItem "description" with
      | error e => exact Or.inr ⟨e, rfl⟩
      | ok v3 => exact Or.inl rfl

/-! ## Claims -/

/-- C1: for every Wishlist `w`, deserializing `w.serialize` (into any
instance) returns normally and reconstructs `customer_id` and
`wishlist_name`; for every Item `i`, deserializing `i.serialize` with
`i.wishlist_id` supplied returns normally and reconstructs `wishlist_id`,
`product_id`, `name` and `description`. -/
theorem spec_C1 (w target : Wishlist) (i : Item) (itarget : Item) :
    ((target.deserialize w.serialize).1.customer_id = w.customer_id ∧
     (target.deserialize w.serialize).1.wishlist_name = w.wishlist_name ∧
     (target.deserialize w.serialize).2 = none) ∧
    ((itarget.deserialize i.serialize i.wishlist_id).1.wishlist_id = i.wishlist_id ∧
     (itarget.deserialize i.serialize i.wishlist_id).1.product_id = i.product_id ∧
     (itarget.deserialize i.serialize i.wishlist_id).1.name = i.name ∧
     (itarget.deserialize i.serialize i.wishlist_id).1.description = i.description ∧
     (itarget.deserialize i.serialize i.wishlist_id).2 = none) := by
  constructor
  · simp [Wishlist.deserialize, Wishlist.serialize, Payload.getItem]
  · simp [Item.deserialize, Item.serialize, Payload.getItem]

/-- C2 is false as stated: deserialize never reads the `id` key, so
deserializing `serialize(x)` into a fresh instance does not recover `x`'s
id.  Concretely, a Wishlist with id 1 serialized and deserialized into an
instance whose id is unassigned yields an entity whose id is still
unassigned, not 1. -/
theorem spec_C2_cex :
    ((Wishlist.deserialize ⟨none, Value.null, Value.null⟩
        (Wishlist.serialize ⟨some 1, Value.int 5, Value.str "a"⟩)).1.id ≠
      (⟨some 1, Value.int 5, Value.str "a"⟩ : Wishlist).id) := by
  decide

/-- C2 (amended): deserialize ignores the payload's `id` key and leaves the
receiving instance's id untouched, so the round trip restores the id only
when serializing and deserializing the same instance: for every Wishlist
`w`, `w.deserialize w.serialize` returns `w` itself (id included) with no
error, and likewise `i.deserialize i.serialize i.wishlist_id` returns `i`
for every Item `i`. -/
theorem spec_C2 (w : Wishlist) (i : Item) :
    w.deserialize w.serialize = (w, none) ∧
    i.deserialize i.serialize i.wishlist_id = (i, none) := by
  constructor
  · cases w
    simp [Wishlist.deserialize, Wishlist.serialize, Payload.getItem]
  · cases i
    simp [Item.deserialize, Item.serialize, Payload.getItem]

/-- C3: a mapping payload missing a required key makes deserialize raise
`DataValidationError` naming the missing field: for Wishlist a missing
`customer_id` (looked up first) or `wishlist_name`; for Item a missing
`product_id`, `name`, or `description` (in lookup order). -/
theorem spec_C3 (w : Wishlist) (i : Item) (wid : Value)
    (entries : List (String × Value)) :
    ((Payload.dict entries).getItem "customer_id" =
        .error (.keyError "customer_id") →
      (w.deserialize (.dict entries)).2 =
        some ⟨"Invalid wishlist: missing customer_id"⟩) ∧
    (∀ v1, (Payload.dict entries).getItem "customer_id" = .ok v1 →
      (Payload.dict entries).getItem "wishlist_name" =
        .error (.keyError "wishlist_name") →
      (w.deserialize (.dict entries)).2 =
        some ⟨"Invalid wishlist: missing wishlist_name"⟩) ∧
    ((Payload.dict entries).getItem "product_id" =
        .error (.keyError "product_id") →
      (i.deserialize (.dict entries) wid).2 =
        some ⟨"Invalid item: missing product_id"⟩) ∧
    (∀ v1, (Payload.dict entries).getItem "product_id" = .ok v1 →
      (Payload.dict entries).getItem "name" = .error (.keyError "name") →
      (i.deserialize (.dict entries) wid).2 =
        some ⟨"Invalid item: missing name"⟩) ∧
    (∀ v1 v2, (Payload.dict entries).getItem "product_id" = .ok v1 →
      (Payload.dict entries).getItem "name" = .ok v2 →
      (Payload.dict entries).getItem "description" =
        .error (.keyError "description") →
      (i.deserialize (.dict entries) wid).2 =
        some ⟨"Invalid item: missing description"⟩) := by
  refine ⟨?_, ?_, ?_, ?_, ?_⟩
  · intro h1
    simp [Wishlist.deserialize, h1, wishlistError]
  · intro v1 h1 h2
    simp [Wishlist.deserialize, h1, h2, wishlistError]
  · intro h1
    simp [Item.deserialize, h1, itemError]
  · intro v1 h1 h2
    simp [Item.deserialize, h1, h2, itemError]
  · intro v1 v2 h1 h2 h3
    simp [Item.deserialize, h1, h2, h3, itemError]

/-- Witness for C3 at a concrete payload: a dict with only `wishlist_name`
is missing `customer_id`, and deserializing it reports exactly that. -/
theorem spec_C3_witness :
    (Wishlist.deserialize ⟨none, Value.null, Value.null⟩
        (.dict [("wishlist_name", Value.str "x")])).2 =
      some ⟨"Invalid wishlist: missing customer_id"⟩ :=
  (spec_C3 ⟨none, Value.null, Value.null⟩
    ⟨none, Value.null, Value.null, Value.null, Value.null⟩ Value.null
    [("wishlist_name", Value.str "x")]).1 rfl

/-- C4: a non-mapping body (a list or `None`) makes both deserializers raise
the bad-or-no-data variant of `DataValidationError`, and every error either
deserializer can produce is a `DataValidationError` with one of the two
message variants (bad-or-no-data, or missing-field). -/
theorem spec_C4 (w : Wishlist) (i : Item) (wid : Value) (elems : List Value)
    (data : Payload) :
    (w.deserialize (.list elems) =
      (w, some ⟨"Invalid wishlist: body of request contained bad or no data"⟩)) ∧
    (w.deserialize .null =
      (w, some ⟨"Invalid wishlist: body of request contained bad or no data"⟩)) ∧
    (i.deserialize (.list elems) wid =
      ({ i with wishlist_id := wid },
       some ⟨"Invalid item: body of request contained bad or no data"⟩)) ∧
    (i.deserialize .null wid =
      ({ i with wishlist_id := wid },
       some ⟨"Invalid item: body of request contained bad or no data"⟩)) ∧
    (∀ e, (w.deserialize data).2 = some e →
      e.msg = "Invalid wishlist: body of request contained bad or no data" ∨
      ∃ k, e.msg = "Invalid wishlist: missing " ++ k) ∧
    (∀ e, (i.deserialize data wid).2 = some e →
      e.msg = "Invalid item: body of request contained bad or no data" ∨
      ∃ k, e.msg = "Invalid item: missing " ++ k) := by
  refine ⟨rfl, rfl, rfl, rfl, ?_, ?_⟩
  · intro e he
    rcases wishlist_error_shape w data with h | ⟨pe, h⟩
    · rw [h] at he
      exact absurd he (by simp)
    · rw [h] at he
      cases pe with
      | keyError k =>
        right
        exact ⟨k, by simpa [wishlistError] using congrArg DataValidationError.msg (Option.some_injective _ he).symm⟩
      | typeError =>
        left
        simpa [wishlistError] using congrArg DataValidationError.msg (Option.some_injective _ he).symm
  · intro e he
    rcases item_error_shape i data wid with h | ⟨pe, h⟩
    · rw [h] at he
      exact absurd he (by simp)
    · rw [h] at he
      cases pe with
      | keyError k =>
        right
        exact ⟨k, by simpa [itemError] using congrArg DataValidationError.msg (Option.some_injective _ he).symm⟩
      | typeError =>
        left
        simpa [itemError] using congrArg DataValidationError.msg (Option.some_injective _ he).symm

/-- Witness for C4 at a concrete input: the error raised on a `None` body
has one of the two documented message variants. -/
theorem spec_C4_witness :
    (DataValidationError.mk
        "Invalid wishlist: body of request contained bad or no data").msg =
      "Invalid wishlist: body of request contained bad or no data" ∨
    ∃ k, (DataValidationError.mk
        "Invalid wishlist: body of request contained bad or no data").msg =
      "Invalid wishlist: missing " ++ k :=
  (spec_C4 ⟨none, Value.null, Value.null⟩
    ⟨none, Value.null, Value.null, Value.null, Value.null⟩ Value.null []
    Payload.null).2.2.2.2.1
    ⟨"Invalid wishlist: body of request contained bad or no data"⟩ rfl

/-- C5: `save()` on an entity with no assigned id inserts a new row (under
the next autoincrement id) and bumps the commit count; on an entity with an
assigned (positive) id it flushes the entity's current field values onto
the existing row and bumps the commit count.  Stated for both Wishlist and
Item. -/
theorem spec_C5 (w : Wishlist) (wdb : WishlistDB) (i : Item) (idb : ItemDB) :
    (w.id = none →
      w.save wdb =
        ({ w with id := some wdb.nextId },
         ⟨wdb.rows ++ [(wdb.nextId, { w with id := some wdb.nextId })],
          wdb.nextId + 1, wdb.commits + 1⟩)) ∧
    (∀ n, w.id = some n → n ≠ 0 →
      w.save wdb = (w, ⟨updateRow wdb.rows n w, wdb.nextId, wdb.commits + 1⟩)) ∧
    (i.id = none →
      i.save idb =
        ({ i with id := some idb.nextId },
         ⟨idb.rows ++ [(idb.nextId, { i with id := some idb.nextId })],
          idb.nextId + 1, idb.commits + 1⟩)) ∧
    (∀ n, i.id = some n → n ≠ 0 →
      i.save idb = (i, ⟨updateRow idb.rows n i, idb.nextId, idb.commits + 1⟩)) := by
  refine ⟨?_, ?_, ?_, ?_⟩
  · intro h
    simp [Wishlist.save, h, idTruthy]
  · intro n h hn
    simp [Wishlist.save, h, idTruthy, hn]
  · intro h
    simp [Item.save, h, idTruthy]
  · intro n h hn
    simp [Item.save, h, idTruthy, hn]

/-- Witness for C5: saving a fresh Wishlist into an empty store inserts it
with id 1; saving a mutated attached Wishlist with id 1 rewrites its row. -/
theorem spec_C5_witness :
    (Wishlist.save ⟨none, Value.int 5, Value.null⟩ ⟨[], 1, 0⟩ =
      (⟨some 1, Value.int 5, Value.null⟩,
       ⟨[(1, ⟨some 1, Value.int 5, Value.null⟩)], 2, 1⟩)) ∧
    (Wishlist.save ⟨some 1, Value.int 7, Value.null⟩
        ⟨[(1, ⟨some 1, Value.int 5, Value.null⟩)], 2, 1⟩ =
      (⟨some 1, Value.int 7, Value.null⟩,
       ⟨updateRow [(1, ⟨some 1, Value.int 5, Value.null⟩)] 1
          ⟨some 1, Value.int 7, Value.null⟩, 2, 2⟩)) :=
  ⟨(spec_C5 ⟨none, Value.int 5, Value.null⟩ ⟨[], 1, 0⟩
      ⟨none, Value.null, Value.null, Value.null, Value.null⟩ ⟨[], 1, 0⟩).1 rfl,
   (spec_C5 ⟨some 1, Value.int 7, Value.null⟩
      ⟨[(1, ⟨some 1, Value.int 5, Value.null⟩)], 2, 1⟩
      ⟨none, Value.null, Value.null, Value.null, Value.null⟩ ⟨[], 1, 0⟩).2.1
     1 rfl (by decide)⟩

/-- C6: saving a fresh entity (no assigned id) over a store whose rows do
not use the next autoincrement id assigns it that new non-null id, and
`get` of that id then returns the saved entity.  Stated for both Wishlist
and Item. -/
theorem spec_C6 (w : Wishlist) (wdb : WishlistDB) (i : Item) (idb : ItemDB) :
    (w.id = none → (∀ p ∈ wdb.rows, p.1 ≠ wdb.nextId) →
      (w.save wdb).1.id = some wdb.nextId ∧ (w.save wdb).1.id ≠ none ∧
      Wishlist.get (w.save wdb).2 wdb.nextId = some (w.save wdb).1) ∧
    (i.id = none → (∀ p ∈ idb.rows, p.1 ≠ idb.nextId) →
      (i.save idb).1.id = some idb.nextId ∧ (i.save idb).1.id ≠ none ∧
      Item.get (i.save idb).2 idb.nextId = some (i.save idb).1) := by
  constructor
  · intro h hf
    have hs : w.save wdb =
        ({ w with id := some wdb.nextId },
         ⟨wdb.rows ++ [(wdb.nextId, { w with id := some wdb.nextId })],
          wdb.nextId + 1, wdb.commits + 1⟩) := by
      simp [Wishlist.save, h, idTruthy]
    rw [hs]
    refine ⟨rfl, by simp, ?_⟩
    have h0 : wdb.rows.find? (fun p => p.1 == wdb.nextId) = none :=
      List.find?_eq_none.mpr (fun x hx => by simpa using hf x hx)
    simp [Wishlist.get, List.find?_append, h0]
  · intro h hf
    have hs : i.save idb =
        ({ i with id := some idb.nextId },
         ⟨idb.rows ++ [(idb.nextId, { i with id := some idb.nextId })],
          idb.nextId + 1, idb.commits + 1⟩) := by
      simp [Item.save, h, idTruthy]
    rw [hs]
    refine ⟨rfl, by simp, ?_⟩
    have h0 : idb.rows.find? (fun p => p.1 == idb.nextId) = none :=
      List.find?_eq_none.mpr (fun x hx => by simpa using hf x hx)
    simp [Item.get, List.find?_append, h0]

/-- Witness for C6: saving a fresh Wishlist and a fresh Item into empty
stores assigns id 1 and makes each retrievable by `get 1`. -/
theorem spec_C6_witness :
    ((Wishlist.save ⟨none, Value.int 5, Value.null⟩ ⟨[], 1, 0⟩).1.id = some 1 ∧
     (Wishlist.save ⟨none, Value.int 5, Value.null⟩ ⟨[], 1, 0⟩).1.id ≠ none ∧
     Wishlist.get (Wishlist.save ⟨none, Value.int 5, Value.null⟩ ⟨[], 1, 0⟩).2 1 =
       some (Wishlist.save ⟨none, Value.int 5, Value.null⟩ ⟨[], 1, 0⟩).1) ∧
    ((Item.save ⟨none, Value.int 1, Value.int 2, Value.str "n", Value.null⟩
        ⟨[], 1, 0⟩).1.id = some 1 ∧
     (Item.save ⟨none, Value.int 1, Value.int 2, Value.str "n", Value.null⟩
        ⟨[], 1, 0⟩).1.id ≠ none ∧
     Item.get (Item.save ⟨none, Value.int 1, Value.int 2, Value.str "n", Value.null⟩
        ⟨[], 1, 0⟩).2 1 =
       some (Item.save ⟨none, Value.int 1, Value.int 2, Value.str "n", Value.null⟩
        ⟨[], 1, 0⟩).1) :=
  ⟨(spec_C6 ⟨none, Value.int 5, Value.null⟩ ⟨[], 1, 0⟩
      ⟨none, Value.int 1, Value.int 2, Value.str "n", Value.null⟩ ⟨[], 1, 0⟩).1
     rfl (by simp),
   (spec_C6 ⟨none, Value.int 5, Value.null⟩ ⟨[], 1, 0⟩
      ⟨none, Value.int 1, Value.int 2, Value.str "n", Value.null⟩ ⟨[], 1, 0⟩).2
     rfl (by simp)⟩

/-- C7: `delete()` removes the row exactly when the entity has an assigned
(positive) id — afterwards `get(id)` is `none` — while an entity with no
assigned id leaves the rows unchanged but still commits.  Stated for both
Wishlist and Item. -/
theorem spec_C7 (w : Wishlist) (wdb : WishlistDB) (i : Item) (idb : ItemDB) :
    (∀ n, w.id = some n → n ≠ 0 →
      Wishlist.get (w.delete wdb) n = none) ∧
    (w.id = none →
      (w.delete wdb).rows = wdb.rows ∧
      (w.delete wdb).commits = wdb.commits + 1) ∧
    (∀ n, i.id = some n → n ≠ 0 →
      Item.get (i.delete idb) n = none) ∧
    (i.id = none →
      (i.delete idb).rows = idb.rows ∧
      (i.delete idb).commits = idb.commits + 1) := by
  refine ⟨?_, ?_, ?_, ?_⟩
  · intro n h hn
    have hd : (w.delete wdb).rows = wdb.rows.filter (fun p => p.1 != n) := by
      simp [Wishlist.delete, h, idTruthy, hn]
    have h0 : (wdb.rows.filter (fun p => p.1 != n)).find?
        (fun p => p.1 == n) = none := by
      apply List.find?_eq_none.mpr
      intro x hx
      have hx2 := (List.mem_filter.mp hx).2
      simp only [bne_iff_ne, ne_eq] at hx2
      simp [hx2]
    simp [Wishlist.get, hd, h0]
  · intro h
    constructor
    · simp [Wishlist.delete, h, idTruthy]
    · simp [Wishlist.delete, h, idTruthy]
  · intro n h hn
    have hd : (i.delete idb).rows = idb.rows.filter (fun p => p.1 != n) := by
      simp [Item.delete, h, idTruthy, hn]
    have h0 : (idb.rows.filter (fun p => p.1 != n)).find?
        (fun p => p.1 == n) = none := by
      apply List.find?_eq_none.mpr
      intro x hx
      have hx2 := (List.mem_filter.mp hx).2
      simp only [bne_iff_ne, ne_eq] at hx2
      simp [hx2]
    simp [Item.get, hd, h0]
  · intro h
    constructor
    · simp [Item.delete, h, idTruthy]
    · simp [Item.delete, h, idTruthy]

/-- Witness for C7: deleting the persisted Wishlist with id 1 makes
`get 1` return `none`, and deleting a fresh Wishlist leaves the rows of a
one-row store unchanged while committing. -/
theorem spec_C7_witness :
    (Wishlist.get
        (Wishlist.delete ⟨some 1, Value.int 5, Value.null⟩
          ⟨[(1, ⟨some 1, Value.int 5, Value.null⟩)], 2, 1⟩) 1 = none) ∧
    ((Wishlist.delete ⟨none, Value.int 5, Value.null⟩
        ⟨[(1, ⟨some 1, Value.int 5, Value.null⟩)], 2, 1⟩).rows =
      [(1, ⟨some 1, Value.int 5, Value.null⟩)] ∧
     (Wishlist.delete ⟨none, Value.int 5, Value.null⟩
        ⟨[(1, ⟨some 1, Value.int 5, Value.null⟩)], 2, 1⟩).commits = 2) :=
  ⟨(spec_C7 ⟨some 1, Value.int 5, Value.null⟩
      ⟨[(1, ⟨some 1, Value.int 5, Value.null⟩)], 2, 1⟩
      ⟨none, Value.null, Value.null, Value.null, Value.null⟩ ⟨[], 1, 0⟩).1
     1 rfl (by decide),
   (spec_C7 ⟨none, Value.int 5, Value.null⟩
      ⟨[(1, ⟨some 1, Value.int 5, Value.null⟩)], 2, 1⟩
      ⟨none, Value.null, Value.null, Value.null, Value.null⟩ ⟨[], 1, 0⟩).2.1
     rfl⟩

/-- C8: `find_by_customer_id` returns exactly the persisted Wishlists whose
`customer_id` equals the queried value (membership characterization), and
in particular, after saving two Wishlists with customer 5 and one with
customer 9 into an empty store, querying for 5 returns exactly the two
matching records. -/
theorem spec_C8 (wdb : WishlistDB) (cid : Value) (w : Wishlist) :
    (w ∈ Wishlist.find_by_customer_id wdb cid ↔
      w ∈ wdb.rows.map (fun p => p.2) ∧ w.customer_id = cid) ∧
    (Wishlist.find_by_customer_id
        (Wishlist.save ⟨none, Value.int 9, Value.str "c"⟩
          ((Wishlist.save ⟨none, Value.int 5, Value.str "b"⟩
            ((Wishlist.save ⟨none, Value.int 5, Value.str "a"⟩
              ⟨[], 1, 0⟩).2)).2)).2 (Value.int 5) =
      [⟨some 1, Value.int 5, Value.str "a"⟩,
       ⟨some 2, Value.int 5, Value.str "b"⟩]) := by
  constructor
  · unfold Wishlist.find_by_customer_id
    simp only [List.mem_map, List.mem_filter]
    constructor
    · rintro ⟨p, ⟨hp, hcid⟩, rfl⟩
      exact ⟨⟨p, hp, rfl⟩, by simpa using hcid⟩
    · rintro ⟨⟨p, hp, rfl⟩, hcid⟩
      exact ⟨p, ⟨hp, by simpa using hcid⟩, rfl⟩
  · rfl

/-- C9: deserialize neither reads nor assigns `id`: for every payload the
instance's id is unchanged after the call (whether it returns normally or
raises), and prepending an `id` entry to a dict payload changes nothing
about the call's outcome, for both Wishlist and Item. -/
theorem spec_C9 (w : Wishlist) (i : Item) (data : Payload) (wid v : Value)
    (entries : List (String × Value)) :
    ((w.deserialize data).1.id = w.id) ∧
    ((i.deserialize data wid).1.id = i.id) ∧
    (w.deserialize (.dict (("id", v) :: entries)) =
      w.deserialize (.dict entries)) ∧
    (i.deserialize (.dict (("id", v) :: entries)) wid =
      i.deserialize (.dict entries) wid) := by
  refine ⟨?_, ?_, ?_, ?_⟩
  · unfold Wishlist.deserialize
    cases data.getItem "customer_id" with
    | error e => rfl
    | ok v1 =>
      cases data.getItem "wishlist_name" with
      | error e => rfl
      | ok v2 => rfl
  · unfold Item.deserialize
    cases data.getItem "product_id" with
    | error e => rfl
    | ok v1 =>
      cases data.getItem "name" with
      | error e => rfl
      | ok v2 =>
        cases data.getItem "description" with
        | error e => rfl
        | ok v3 => rfl
  · unfold Wishlist.deserialize
    rw [getItem_dict_cons_ne "id" "customer_id" v entries (by decide),
        getItem_dict_cons_ne "id" "wishlist_name" v entries (by decide)]
  · unfold Item.deserialize
    rw [getItem_dict_cons_ne "id" "product_id" v entries (by decide),
        getItem_dict_cons_ne "id" "name" v entries (by decide),
        getItem_dict_cons_ne "id" "description" v entries (by decide)]

/-- C10: deserialization mutates field by field in lookup order and is not
atomic on failure: `Item.deserialize` always sets `wishlist_id` to the
supplied argument (even on any raising payload); when `name` is the first
missing key the instance keeps the already-assigned `product_id`; when
`description` is missing it keeps `product_id` and `name`; and for Wishlist
a missing `wishlist_name` still leaves `customer_id` assigned. -/
theorem spec_C10 (w : Wishlist) (i : Item) (data : Payload) (wid : Value)
    (entries : List (String × Value)) :
    ((i.deserialize data wid).1.wishlist_id = wid) ∧
    (∀ v1, (Payload.dict entries).getItem "product_id" = .ok v1 →
      (Payload.dict entries).getItem "name" = .error (.keyError "name") →
      i.deserialize (.dict entries) wid =
        ({ i with wishlist_id := wid, product_id := v1 },
         some ⟨"Invalid item: missing name"⟩)) ∧
    (∀ v1 v2, (Payload.dict entries).getItem "product_id" = .ok v1 →
      (Payload.dict entries).getItem "name" = .ok v2 →
      (Payload.dict entries).getItem "description" =
        .error (.keyError "description") →
      i.deserialize (.dict entries) wid =
        ({ i with wishlist_id := wid, product_id := v1, name := v2 },
         some ⟨"Invalid item: missing description"⟩)) ∧
    (∀ v1, (Payload.dict entries).getItem "customer_id" = .ok v1 →
      (Payload.dict entries).getItem "wishlist_name" =
        .error (.keyError "wishlist_name") →
      w.deserialize (.dict entries) =
        ({ w with customer_id := v1 },
         some ⟨"Invalid wishlist: missing wishlist_name"⟩)) := by
  refine ⟨?_, ?_, ?_, ?_⟩
  · unfold Item.deserialize
    cases data.getItem "product_id" with
    | error e => rfl
    | ok v1 =>
      cases data.getItem "name" with
      | error e => rfl
      | ok v2 =>
        cases data.getItem "description" with
        | error e => rfl
        | ok v3 => rfl
  · intro v1 h1 h2
    simp [Item.deserialize, h1, h2, itemError]
  · intro v1 v2 h1 h2 h3
    simp [Item.deserialize, h1, h2, h3, itemError]
  · intro v1 h1 h2
    simp [Wishlist.deserialize, h1, h2, wishlistError]

/-- Witness for C10: deserializing a dict holding only `product_id` raises
on the missing `name` but has already set both `wishlist_id` and
`product_id` on the instance. -/
theorem spec_C10_witness :
    Item.deserialize ⟨none, Value.null, Value.null, Value.null, Value.null⟩
        (.dict [("product_id", Value.int 7)]) (Value.int 3) =
      (⟨none, Value.int 3, Value.int 7, Value.null, Value.null⟩,
       some ⟨"Invalid item: missing name"⟩) :=
  (spec_C10 ⟨none, Value.null, Value.null⟩
    ⟨none, Value.null, Value.null, Value.null, Value.null⟩ Payload.null
    (Value.int 3) [("product_id", Value.int 7)]).2.1 (Value.int 7) rfl rfl
